import Mathlib

/-!
Shallow embedding of the pickleball analytics backend (src/main.py,
src/schemas.py): the identifier codec, the document serializer, entity
validation, the request handlers and their aggregation pipelines, together
with theorems checking the natural-language specification against them.
-/

set_option maxHeartbeats 1000000

/-! ## Identifier codec (`oid` in src/main.py, delegating to `bson.ObjectId`) -/

/-- Numeric value of a hexadecimal digit character, as accepted by the Python function
`bytes.fromhex` (both cases are valid); `none` on a non-hex character. -/
def hexVal (c : Char) : Option Nat :=
  if 48 ≤ c.toNat && c.toNat ≤ 57 then some (c.toNat - 48)
  else if 97 ≤ c.toNat && c.toNat ≤ 102 then some (c.toNat - 87)
  else if 65 ≤ c.toNat && c.toNat ≤ 70 then some (c.toNat - 55)
  else none

/-- Lowercase hexadecimal digit for a nibble value, as produced by
`bytes.hex()`, which `str(ObjectId)` uses. -/
def hexChar (n : Nat) : Char :=
  if n < 10 then Char.ofNat (48 + n) else Char.ofNat (87 + n)

/-- ASCII whitespace, which `bytes.fromhex` skips between byte pairs:
space, tab, newline, vertical tab, form feed, carriage return. -/
def isPyAsciiSpace (c : Char) : Bool :=
  c.toNat == 32 || c.toNat == 9 || c.toNat == 10 ||
  c.toNat == 11 || c.toNat == 12 || c.toNat == 13

/-- Character-level parse modelling `bytes.fromhex`: ASCII whitespace may
appear before, after or between byte pairs and is skipped; each byte is two
adjacent hexadecimal digits (whitespace inside a pair, a trailing odd digit,
or any other character fails). Returns the nibble sequence. -/
def hexDecode : List Char → Option (List Nat)
  | [] => some []
  | [c] => if isPyAsciiSpace c then some [] else none
  | c :: d :: cs2 =>
    if isPyAsciiSpace c then hexDecode (d :: cs2)
    else
      match hexVal c, hexVal d with
      | some hi, some lo =>
        match hexDecode cs2 with
        | some ns => some (hi :: lo :: ns)
        | none => none
      | _, _ => none

/-- A `bson.ObjectId`, represented by its sequence of 24 hexadecimal nibble
values (the 12 identifier bytes). -/
structure ObjectId where
  nibbles : List Nat
deriving DecidableEq, Repr

/-- Constructor `bson.ObjectId(s)` on a string argument: bson checks only
that the string has 24 characters and that `bytes.fromhex` accepts it — with
no post-check on the byte count, so strings with whitespace between digit
pairs yield identifiers of fewer than 12 bytes. -/
def ObjectId.ofString (s : String) : Option ObjectId :=
  if s.data.length = 24 then (hexDecode s.data).map ObjectId.mk else none

/-- Encoding `str(o)` for an `ObjectId o`: the lowercase hexadecimal encoding. -/
def ObjectId.toString (o : ObjectId) : String :=
  ⟨o.nibbles.map hexChar⟩

/-- An `HTTPException(status_code, detail)` raised by a handler. -/
structure HError where
  status : Nat
  detail : String
deriving DecidableEq, Repr

instance {ε α : Type} [DecidableEq ε] [DecidableEq α] : DecidableEq (Except ε α) := fun x y =>
  match x, y with
  | .ok a, .ok b =>
    match decEq a b with
    | isTrue h => isTrue (by rw [h])
    | isFalse h => isFalse (by intro hh; cases hh; exact h rfl)
  | .error a, .error b =>
    match decEq a b with
    | isTrue h => isTrue (by rw [h])
    | isFalse h => isFalse (by intro hh; cases hh; exact h rfl)
  | .ok _, .error _ => isFalse (by intro hh; cases hh)
  | .error _, .ok _ => isFalse (by intro hh; cases hh)

/-- Function `oid` from src/main.py lines 25-29: decode a string to an ObjectId,
mapping any failure to a 400 client error. -/
def oid (s : String) : Except HError ObjectId :=
  match ObjectId.ofString s with
  | some o => .ok o
  | none => .error ⟨400, "Invalid ObjectId format"⟩

/-- The native identifier string encoding of the database: exactly the strings
produced by `str(ObjectId)`, i.e. 24 lowercase hexadecimal characters. -/
def isNativeOidString (s : String) : Bool :=
  s.data.length == 24 && s.data.all fun c =>
    (48 ≤ c.toNat && c.toNat ≤ 57) || (97 ≤ c.toNat && c.toNat ≤ 102)


/-! ## Document serializer (`to_serializable` in src/main.py lines 31-39) -/

/-- A BSON-ish document value: native identifier, text, integer, boolean or
null. (`datetime` timestamps are carried as integers here.) -/
inductive BVal where
  | oidV : ObjectId → BVal
  | strV : String → BVal
  | intV : Int → BVal
  | boolV : Bool → BVal
  | nullV : BVal
deriving DecidableEq, Repr

/-- A document: an insertion-ordered mapping from field names to values,
modelling a Python dict. -/
abbrev BDoc := List (String × BVal)

/-- Lookup `doc.get(k)`. -/
def dictGet (d : BDoc) (k : String) : Option BVal :=
  (d.find? fun p => p.1 == k).map (·.2)

/-- Effect of `doc.pop(k)` on the dict: the entry for `k` is removed. -/
def dictPop (d : BDoc) (k : String) : BDoc :=
  d.filter fun p => p.1 != k

/-- Assignment `doc[k] = v`: replace in place when the key exists, else append. -/
def dictSet (d : BDoc) (k : String) (v : BVal) : BDoc :=
  if d.any fun p => p.1 == k then d.map fun p => if p.1 == k then (k, v) else p
  else d ++ [(k, v)]

/-- Python `str()` on a document value. -/
def BVal.pyStr : BVal → String
  | .oidV o => o.toString
  | .strV s => s
  | .intV n => toString n
  | .boolV b => if b then "True" else "False"
  | .nullV => "None"

/-- Second phase of the serializer: the loop stringifying every field that
holds a native identifier value, in place. -/
def stringifyOids (d : BDoc) : BDoc :=
  d.map fun p =>
    match p.2 with
    | .oidV o => (p.1, .strV o.toString)
    | _ => p

/-- Serializer `to_serializable` from src/main.py lines 31-39. Its first statement,
`doc = dict(doc)`, copies the input, and every later operation acts on the
copy, so the document of the caller is never mutated; the embedding is therefore a
pure function of the input. -/
def to_serializable (doc0 : BDoc) : BDoc :=
  let doc := doc0
  let doc1 :=
    match dictGet doc "_id" with
    | some v =>
      if v = .nullV then doc
      else dictSet (dictPop doc "_id") "id" (.strV v.pyStr)
    | none => doc
  stringifyOids doc1

/-! ## Entity schemas (src/schemas.py) -/

/-- A 422-class validation error produced by the schema validation layer,
carrying the offending field. -/
inductive VError where
  | missing (field : String)
  | notInRange (field : String)
  | invalidLiteral (field : String)
deriving DecidableEq, Repr

/-- A raw Player-creation request body: each schema field either present or
absent. (Requests whose fields have the wrong runtime type are handled by the
external validation library and are out of scope.) -/
structure RawPlayer where
  name : Option String
  rating : Option ℚ
  handedness : Option String
deriving DecidableEq, Repr

/-- A validated Player record per the `Player` schema of src/schemas.py:
`name` required (any string), `rating` optional within [0, 6], `handedness`
optional in {left, right}. -/
structure PlayerModel where
  name : String
  rating : Option ℚ
  handedness : Option String
deriving DecidableEq, Repr

/-- Validation of a Player-creation body against the `Player` schema of
src/schemas.py lines 13-20: `name: str` (required, no emptiness constraint),
`rating: Optional[float]` with `ge=0, le=6.0`, `handedness` an optional
literal `left`/`right`. -/
def validatePlayer (r : RawPlayer) : Except VError PlayerModel :=
  match r.name with
  | none => .error (.missing "name")
  | some n =>
    match r.rating with
    | some q =>
      if 0 ≤ q ∧ q ≤ 6 then
        match r.handedness with
        | some h =>
          if h = "left" ∨ h = "right" then .ok ⟨n, some q, some h⟩
          else .error (.invalidLiteral "handedness")
        | none => .ok ⟨n, some q, none⟩
      else .error (.notInRange "rating")
    | none =>
      match r.handedness with
      | some h =>
        if h = "left" ∨ h = "right" then .ok ⟨n, none, some h⟩
        else .error (.invalidLiteral "handedness")
      | none => .ok ⟨n, none, none⟩

/-! ## Stored documents and database state -/

/-- A stored document of the `player` collection. -/
structure PlayerDoc where
  _id : ObjectId
  name : String
  rating : Option ℚ
  handedness : Option String
deriving DecidableEq, Repr

/-- A stored document of the `match` collection (player references already
converted to native identifiers by `create_match`). Timestamps are carried as
integers. -/
structure MatchDoc where
  _id : ObjectId
  player_a_id : ObjectId
  player_b_id : ObjectId
  location : Option String
  level : Option String
  started_at : Option Int
  completed_at : Option Int
deriving DecidableEq, Repr

/-- A stored document of the `point` collection. `winner_shot` distinguishes
an absent field (`none`) from a field present with null (`some none`) or a
string (`some (some s)`), because the shot-distribution aggregation filters
on field presence (`$exists`). -/
structure PointDoc where
  _id : ObjectId
  match_id : ObjectId
  scorer_id : ObjectId
  rally_length : Nat
  winner_shot : Option (Option String)
  unforced_error : Bool
  notes : Option String
deriving DecidableEq, Repr

/-- The three collections of the connected database, each in insertion
order. (The MongoDB primary key makes every `_id` within a collection unique;
theorems that need it take it as a hypothesis.) -/
structure DB where
  players : List PlayerDoc
  «matches» : List MatchDoc
  points : List PointDoc
deriving DecidableEq, Repr

/-- The fixed 500 response every handler raises when no database connection
is configured (`if db is None` in src/main.py). -/
def dbErr : HError := ⟨500, "Database not configured"⟩

/-! ## Request handlers (src/main.py) -/

/-- Modelled from the spec: `create_document` of database.py is not under
src/; per spec §4.3 the Persistence Gateway exposes
`insert(collectionName, record) -> generatedId`. The database-generated
identifier is passed as `newId`. -/
def insertPlayer (db : DB) (newId : ObjectId) (p : PlayerModel) : String × DB :=
  (newId.toString,
   { db with players := db.players ++ [⟨newId, p.name, p.rating, p.handedness⟩] })

/-- Handler `create_player` (src/main.py lines 96-101): database check, then insert
via the gateway, returning the generated identifier. -/
def create_player (db? : Option DB) (newId : ObjectId) (p : PlayerModel) :
    Except HError (String × DB) :=
  match db? with
  | none => .error dbErr
  | some db => .ok (insertPlayer db newId p)

/-- A serialized player record as returned by `list_players`:
`to_serializable` applied to a player document (internal `_id` replaced by
the string `id`). -/
structure PlayerOut where
  id : String
  name : String
  rating : Option ℚ
  handedness : Option String
deriving DecidableEq, Repr

/-- Handler `list_players` (src/main.py lines 103-108): database check, fetch all
player documents (`get_documents`, modelled from the spec function
`findAll(collectionName)` since database.py is not under src/), serialize
each. -/
def list_players (db? : Option DB) : Except HError (List PlayerOut) :=
  match db? with
  | none => .error dbErr
  | some db => .ok (db.players.map fun p => ⟨p._id.toString, p.name, p.rating, p.handedness⟩)

/-- A Match-creation request body after schema validation: player references
still strings, metadata optional. -/
structure MatchCreate where
  player_a_id : String
  player_b_id : String
  location : Option String
  level : Option String
  started_at : Option Int
  completed_at : Option Int
deriving DecidableEq, Repr

/-- Handler `create_match` (src/main.py lines 116-125): database check first, then
both player references decoded (400 on malformed input), then insert. -/
def create_match (db? : Option DB) (newId : ObjectId) (mc : MatchCreate) :
    Except HError (String × DB) :=
  match db? with
  | none => .error dbErr
  | some db =>
    match oid mc.player_a_id with
    | .error e => .error e
    | .ok pa =>
      match oid mc.player_b_id with
      | .error e => .error e
      | .ok pb =>
        .ok (newId.toString,
          { db with «matches» := db.«matches» ++
              [⟨newId, pa, pb, mc.location, mc.level, mc.started_at, mc.completed_at⟩] })

/-- BSON sort key for `started_at`: a missing or null timestamp sorts below
every concrete value (hence last under a descending sort). -/
def tsKey : Option Int → WithBot ℤ
  | none => ⊥
  | some z => (z : WithBot ℤ)

/-- The `$sort {started_at: -1, _id: -1}` key of the `recent_matches`
pipeline, as a lexicographic key in dual (descending) order: start time
descending, then identifier bytes descending. -/
def matchSortKey (m : MatchDoc) : (WithBot ℤ)ᵒᵈ ×ₗ (List ℕ)ᵒᵈ :=
  toLex (OrderDual.toDual (tsKey m.started_at), OrderDual.toDual m._id.nibbles)

/-- Relation: `a` sorts no later than `b` in the `recent_matches` output order. -/
def recentLE (a b : MatchDoc) : Prop := matchSortKey a ≤ matchSortKey b

instance : DecidableRel recentLE := fun a b =>
  inferInstanceAs (Decidable (matchSortKey a ≤ matchSortKey b))

instance : IsTotal MatchDoc recentLE :=
  ⟨fun a b => le_total (matchSortKey a) (matchSortKey b)⟩

instance : IsTrans MatchDoc recentLE :=
  ⟨fun _ _ _ h1 h2 => le_trans h1 h2⟩

/-- One row of the `recent_matches` response: the `$lookup`/`$unwind`/
`$project` tail of the pipeline followed by `to_serializable` — the two
display names of the two players attached (absent when the reference does not
resolve), match metadata kept, identifier exposed as a string `id`. -/
structure RecentRow where
  id : String
  player_a : Option String
  player_b : Option String
  location : Option String
  level : Option String
  started_at : Option Int
  completed_at : Option Int
deriving DecidableEq, Repr

/-- Annotation of one match document by the pipeline tail. -/
def annotateMatch (db : DB) (m : MatchDoc) : RecentRow :=
  { id := m._id.toString
    player_a := (db.players.find? fun p => p._id == m.player_a_id).map (·.name)
    player_b := (db.players.find? fun p => p._id == m.player_b_id).map (·.name)
    location := m.location
    level := m.level
    started_at := m.started_at
    completed_at := m.completed_at }

/-- Handler `recent_matches` (src/main.py lines 127-158): database check, then sort
all matches by start time descending with identifier-descending tie-break,
truncate to `limit`, and annotate each row. -/
def recent_matches (db? : Option DB) (limit : Nat) : Except HError (List RecentRow) :=
  match db? with
  | none => .error dbErr
  | some db =>
    .ok (((List.insertionSort recentLE db.«matches»).take limit).map (annotateMatch db))

/-- A Point-creation request body after schema validation. -/
structure PointCreate where
  match_id : String
  scorer_id : String
  rally_length : Nat
  winner_shot : Option String
  unforced_error : Bool
  notes : Option String
deriving DecidableEq, Repr

/-- Handler `create_point` (src/main.py lines 166-176): database check first, then
both references decoded (400 on malformed input); a null `winner_shot` is
popped from the document, so the stored field is either absent or a string. -/
def create_point (db? : Option DB) (newId : ObjectId) (pc : PointCreate) :
    Except HError (String × DB) :=
  match db? with
  | none => .error dbErr
  | some db =>
    match oid pc.match_id with
    | .error e => .error e
    | .ok mo =>
      match oid pc.scorer_id with
      | .error e => .error e
      | .ok so =>
        let stored_shot : Option (Option String) :=
          match pc.winner_shot with
          | none => none
          | some s => some (some s)
        .ok (newId.toString,
          { db with points := db.points ++
              [⟨newId, mo, so, pc.rally_length, stored_shot, pc.unforced_error, pc.notes⟩] })

/-! ## Analytics queries (src/main.py lines 181-245) -/

/-- Accumulator `$avg` of `rally_length` over point documents. -/
def rallyAvg (pts : List PointDoc) : ℚ :=
  (pts.map fun pt => (pt.rally_length : ℚ)).sum / pts.length

/-- Grouping stage `$group` of the leaderboard: one row per distinct scorer
together with the count of the points of that scorer and the average rally length over
them. (MongoDB does not specify the order of group outputs; the subsequent
`$sort` determines the order that matters.) -/
def scorerGroups (pts : List PointDoc) : List (ObjectId × Nat × ℚ) :=
  ((pts.map fun pt => pt.scorer_id).dedup).map fun sid =>
    (sid, (pts.filter fun pt => pt.scorer_id == sid).length,
      rallyAvg (pts.filter fun pt => pt.scorer_id == sid))

/-- One leaderboard row after `$lookup`/`$unwind`/`$project`. The `$project`
stage does not exclude `_id`, so MongoDB keeps the group key — a raw
ObjectId — in every row, and this handler never applies `to_serializable`. -/
structure LBRow where
  _id : ObjectId
  player_id : String
  name : Option String
  points_won : Nat
  avg_rally : ℚ
deriving DecidableEq, Repr

/-- Points-won-descending comparison used by the leaderboard stage `$sort`. -/
def lbLE (a b : LBRow) : Prop := b.points_won ≤ a.points_won

instance : DecidableRel lbLE := fun a b => Nat.decLe b.points_won a.points_won

instance : IsTotal LBRow lbLE := ⟨fun a b => le_total b.points_won a.points_won⟩

instance : IsTrans LBRow lbLE := ⟨fun _ _ _ h1 h2 => le_trans h2 h1⟩

/-- The leaderboard stages `$lookup`/`$unwind`/`$project` on one group
row: expose the scorer identifier as a string and attach the scorer
display name, absent when the Player reference does not resolve; the raw
`_id` group key stays in the row. -/
def lbRowOf (db : DB) (g : ObjectId × Nat × ℚ) : LBRow :=
  { _id := g.1
    player_id := g.1.toString
    name := (db.players.find? fun p => p._id == g.1).map (·.name)
    points_won := g.2.1
    avg_rally := g.2.2 }

/-- The rows the leaderboard aggregation pipeline yields: group all points
by scorer, attach the display name of the scorer (absent when the reference
does not resolve), sort by points won descending, truncate to `limit`. -/
def leaderboardRows (db : DB) (limit : Nat) : List LBRow :=
  (List.insertionSort lbLE ((scorerGroups db.points).map (lbRowOf db))).take limit

/-- Handler `leaderboard` (src/main.py lines 181-195): database check, then
the pipeline rows are returned directly — this is the one endpoint that
skips `to_serializable`. Every row still carries its raw ObjectId `_id`
(kept by `$project` by default), for which the framework JSON encoder has no
encoder and raises, so any nonempty row set is surfaced as a 500 server
error; only an empty row set serializes successfully. -/
def leaderboard (db? : Option DB) (limit : Nat) : Except HError (List LBRow) :=
  match db? with
  | none => .error dbErr
  | some db =>
    if (leaderboardRows db limit).isEmpty then .ok (leaderboardRows db limit)
    else .error ⟨500, "Internal Server Error"⟩

/-- Count-descending comparison used by the shot-distribution `$sort`. -/
def cntLE (a b : Option String × Nat) : Prop := b.2 ≤ a.2

instance : DecidableRel cntLE := fun a b => Nat.decLe b.2 a.2

instance : IsTotal (Option String × Nat) cntLE := ⟨fun a b => le_total b.2 a.2⟩

instance : IsTrans (Option String × Nat) cntLE := ⟨fun _ _ _ h1 h2 => le_trans h2 h1⟩

/-- The shot-distribution pipeline of `player_analytics` (src/main.py lines
229-236): restrict to points of the given matches, scored by the player,
whose `winner_shot` field is present (`$exists: true`, which a null value
also satisfies); group by shot with counts; sort by count descending; then
materialize as a mapping, dropping falsy keys (null or the empty string) as
the guard `if r.get("_id")` of the dict comprehension does. -/
def materializeShot (g : Option String × Nat) : Option (String × Nat) :=
  match g.1 with
  | some t => if t = "" then none else some (t, g.2)
  | none => none

def shotDistribution (pts : List PointDoc) (matchIds : List ObjectId) (p : ObjectId) :
    List (String × Nat) :=
  let own := pts.filter fun pt =>
    matchIds.contains pt.match_id && pt.scorer_id == p && pt.winner_shot.isSome
  let groups := ((own.map fun pt => pt.winner_shot.getD none).dedup).map fun k =>
    (k, (own.filter fun pt => pt.winner_shot.getD none == k).length)
  (List.insertionSort cntLE groups).filterMap materializeShot

/-- The `totals` object of the analytics response. -/
structure PATotals where
  points_won : Nat
  points_lost : Nat
  avg_rally : Option ℚ
deriving DecidableEq, Repr

/-- The `player_analytics` response object. -/
structure PAResp where
  player : Option String
  totals : PATotals
  shot_distribution : List (String × Nat)
  «matches» : Nat
deriving DecidableEq, Repr

/-- Handler `player_analytics` (src/main.py lines 197-245): database check, decode
the player identifier, find the matches the player appears in; with zero
matches return the zero-valued summary, otherwise count points won (scorer is
the player) and lost (scorer is anyone else) within those matches, average
rally length over all points of those matches, and compute the shot
distribution. -/
def player_analytics (db? : Option DB) (player_id : String) : Except HError PAResp :=
  match db? with
  | none => .error dbErr
  | some db =>
    match oid player_id with
    | .error e => .error e
    | .ok p =>
      let ms := db.«matches».filter fun m => m.player_a_id == p || m.player_b_id == p
      let match_ids := ms.map fun m => m._id
      if match_ids.isEmpty then
        .ok { player := (db.players.find? fun pl => pl._id == p).map (·.name)
              totals := ⟨0, 0, none⟩
              shot_distribution := []
              «matches» := 0 }
      else
        let inPts := db.points.filter fun pt => match_ids.contains pt.match_id
        let won := (inPts.filter fun pt => pt.scorer_id == p).length
        let lost := (inPts.filter fun pt => pt.scorer_id != p).length
        let avg : Option ℚ := if inPts.isEmpty then none else some (rallyAvg inPts)
        .ok { player := (db.players.find? fun pl => pl._id == p).map (·.name)
              totals := ⟨won, lost, avg⟩
              shot_distribution := shotDistribution db.points match_ids p
              «matches» := ms.length }

/-- Specification-side predicate: the point belongs to one of the given
matches of the player — some stored match has the player on either side and the
point references it. -/
def inPlayerMatches (db : DB) (p : ObjectId) (pt : PointDoc) : Bool :=
  db.«matches».any fun m => (m.player_a_id == p || m.player_b_id == p) && (pt.match_id == m._id)

/-- Total count recorded for shot category `s` in a materialized shot
distribution. -/
def shotCount (dist : List (String × Nat)) (s : String) : Nat :=
  ((dist.filter fun e => e.1 == s).map fun e => e.2).sum

/-! ## Concrete instances used by witnesses and counterexamples -/

/-- A concrete identifier: 24 nibbles of value `n`. -/
def rep24 (n : Nat) : ObjectId := ⟨List.replicate 24 n⟩

/-- One player, no matches: the zero-summary scenario of the analytics
endpoint. -/
def dbC1 : DB := ⟨[⟨rep24 10, "Alice", none, none⟩], [], []⟩

def mC4a : MatchDoc := ⟨rep24 1, rep24 9, rep24 8, none, none, some 1, none⟩

def mC4b : MatchDoc := ⟨rep24 2, rep24 9, rep24 8, none, none, some 2, none⟩

def mC4c : MatchDoc := ⟨rep24 3, rep24 9, rep24 8, none, none, some 3, none⟩

/-- Three matches with strictly increasing start times. -/
def dbC4 : DB := ⟨[], [mC4a, mC4b, mC4c], []⟩

def pC3a : PointDoc := ⟨rep24 7, rep24 9, rep24 1, 2, none, false, none⟩

def pC3b : PointDoc := ⟨rep24 7, rep24 9, rep24 2, 3, none, false, none⟩

/-- Two scorers with 3 and 5 points won. -/
def dbC3 : DB :=
  ⟨[⟨rep24 2, "Bea", none, none⟩], [],
   [pC3a, pC3a, pC3a, pC3b, pC3b, pC3b, pC3b, pC3b]⟩

/-- Two matches — only the first involves player `rep24 10` — and three
points: two in the match of the player (one won, one lost), one in the unrelated
match. -/
def mC2a : MatchDoc := ⟨rep24 1, rep24 10, rep24 11, none, none, some 5, none⟩

def mC2b : MatchDoc := ⟨rep24 2, rep24 11, rep24 12, none, none, some 6, none⟩

def dbC2 : DB :=
  ⟨[], [mC2a, mC2b],
   [⟨rep24 4, rep24 1, rep24 10, 4, none, false, none⟩,
    ⟨rep24 5, rep24 1, rep24 11, 5, none, false, none⟩,
    ⟨rep24 6, rep24 2, rep24 11, 7, none, false, none⟩]⟩

/-- A Point-creation request without `winner_shot`, referencing the match
and scorer identifiers `rep24 1` and `rep24 2`. -/
def pcC5n : PointCreate :=
  ⟨"111111111111111111111111", "222222222222222222222222", 4, none, false, none⟩

/-- The same request with `winner_shot = "dink"`. -/
def pcC5d : PointCreate :=
  ⟨"111111111111111111111111", "222222222222222222222222", 4, some "dink", false, none⟩

/-! ## Theorems -/

theorem hexVal_of_lower (c : Char)
    (h : ((48 ≤ c.toNat && c.toNat ≤ 57) || (97 ≤ c.toNat && c.toNat ≤ 102)) = true) :
    ∃ n, hexVal c = some n ∧ hexChar n = c := by
  simp only [Bool.or_eq_true, Bool.and_eq_true, decide_eq_true_eq] at h
  rcases h with ⟨h1, h2⟩ | ⟨h1, h2⟩
  · refine ⟨c.toNat - 48, ?_, ?_⟩
    · simp [hexVal, h1, h2]
    · have hlt : c.toNat - 48 < 10 := by omega
      have he : 48 + (c.toNat - 48) = c.toNat := by omega
      simp [hexChar, hlt, he, Char.ofNat_toNat]
  · refine ⟨c.toNat - 87, ?_, ?_⟩
    · have h3 : ¬(c.toNat ≤ 57) := by omega
      simp [hexVal, h3, h1, h2]
    · have hlt : ¬(c.toNat - 87 < 10) := by omega
      have he : 87 + (c.toNat - 87) = c.toNat := by omega
      simp [hexChar, hlt, he, Char.ofNat_toNat]

theorem lowerHex_not_space (c : Char)
    (h : ((48 ≤ c.toNat && c.toNat ≤ 57) || (97 ≤ c.toNat && c.toNat ≤ 102)) = true) :
    isPyAsciiSpace c = false := by
  simp only [Bool.or_eq_true, Bool.and_eq_true, decide_eq_true_eq] at h
  simp only [isPyAsciiSpace, Bool.or_eq_false_iff, beq_eq_false_iff_ne, ne_eq]
  rcases h with ⟨h1, h2⟩ | ⟨h1, h2⟩ <;> omega

theorem hexDecode_roundtrip : ∀ cs : List Char,
    (cs.all fun c =>
      (48 ≤ c.toNat && c.toNat ≤ 57) || (97 ≤ c.toNat && c.toNat ≤ 102)) = true →
    cs.length % 2 = 0 →
    ∃ ns, hexDecode cs = some ns ∧ ns.map hexChar = cs
  | [], _, _ => ⟨[], rfl, rfl⟩
  | [c], _, hlen => by simp at hlen
  | c :: d :: cs2, h, hlen => by
    simp only [List.all_cons, Bool.and_eq_true] at h
    obtain ⟨n1, hn1, hc1⟩ := hexVal_of_lower c h.1
    obtain ⟨n2, hn2, hc2⟩ := hexVal_of_lower d h.2.1
    have hsp : isPyAsciiSpace c = false := lowerHex_not_space c h.1
    have hlen2 : cs2.length % 2 = 0 := by
      simp only [List.length_cons] at hlen
      omega
    obtain ⟨ns, hns, hmap⟩ := hexDecode_roundtrip cs2 h.2.2 hlen2
    exact ⟨n1 :: n2 :: ns, by simp [hexDecode, hsp, hn1, hn2, hns],
      by simp [hc1, hc2, hmap]⟩

/-- Every character a successful `bytes.fromhex` parse consumes is either a
hexadecimal digit or skipped ASCII whitespace. -/
theorem hexDecode_chars : ∀ cs : List Char, ∀ ns,
    hexDecode cs = some ns → ∀ c ∈ cs, ((hexVal c).isSome || isPyAsciiSpace c) = true
  | [], _, _, c, hc => absurd hc (List.not_mem_nil c)
  | [c0], ns, hd, c, hc => by
    rcases List.mem_cons.mp hc with rfl | hc2
    · by_cases hsp : isPyAsciiSpace c = true
      · simp [hsp]
      · simp only [hexDecode] at hd
        rw [if_neg hsp] at hd
        cases hd
    · exact absurd hc2 (List.not_mem_nil c)
  | c0 :: d :: cs2, ns, hd, c, hc => by
    simp only [hexDecode] at hd
    by_cases hsp : isPyAsciiSpace c0 = true
    · rw [if_pos hsp] at hd
      rcases List.mem_cons.mp hc with rfl | hc2
      · simp [hsp]
      · exact hexDecode_chars (d :: cs2) ns hd c hc2
    · rw [if_neg hsp] at hd
      split at hd
      · rename_i hi lo hv hv2
        split at hd
        · rename_i ns2 hd2
          rcases List.mem_cons.mp hc with rfl | hc2
          · simp [hv]
          · rcases List.mem_cons.mp hc2 with rfl | hc3
            · simp [hv2]
            · exact hexDecode_chars cs2 ns2 hd2 c hc3
        · cases hd
      · cases hd

/-- C6 (amended): for every string in the native encoding (24 lowercase hex
characters, the image of `str(ObjectId)`), decode-then-reencode is the
identity. The rejection half of the claim is weaker than stated: a string of
the wrong length, or containing a character that is neither a hexadecimal
digit nor ASCII whitespace, fails with the 400 InvalidIdentifier error — but
some non-native 24-character strings decode successfully: uppercase
hexadecimal (re-encoding to lowercase) and hex-digit pairs interleaved with
ASCII whitespace, which `bytes.fromhex` skips (re-encoding to a shorter
string); see the counterexample. -/
theorem oid_roundtrip_and_rejects (s : String) :
    (isNativeOidString s = true → (oid s).map ObjectId.toString = .ok s) ∧
    (s.data.length ≠ 24 → oid s = .error ⟨400, "Invalid ObjectId format"⟩) ∧
    ((∃ c ∈ s.data, ((hexVal c).isSome || isPyAsciiSpace c) = false) →
      oid s = .error ⟨400, "Invalid ObjectId format"⟩) := by
  refine ⟨?_, ?_, ?_⟩
  · intro h
    simp only [isNativeOidString, Bool.and_eq_true, beq_iff_eq] at h
    obtain ⟨ns, hns, hmap⟩ := hexDecode_roundtrip s.data h.2 (by omega)
    have hof : ObjectId.ofString s = some ⟨ns⟩ := by
      simp [ObjectId.ofString, h.1, hns]
    have hs : ObjectId.toString ⟨ns⟩ = s := by
      cases s with
      | mk data => simp only [ObjectId.toString, hmap]
    simp [oid, hof, hs, Except.map]
  · intro h
    have hof : ObjectId.ofString s = none := by
      unfold ObjectId.ofString
      rw [if_neg h]
    simp [oid, hof]
  · rintro ⟨c, hc, hbad⟩
    have hd : hexDecode s.data = none := by
      rcases hdd : hexDecode s.data with _ | ns
      · rfl
      · have := hexDecode_chars s.data ns hdd c hc
        rw [this] at hbad
        cases hbad
    have hof : ObjectId.ofString s = none := by
      unfold ObjectId.ofString
      by_cases h24 : s.data.length = 24
      · rw [if_pos h24, hd]
        rfl
      · rw [if_neg h24]
    simp [oid, hof]

/-- Witness for C6: a concrete native string round-trips; a wrong-length
string and a 24-character string with a non-hex, non-whitespace character
are both rejected with the 400 error. -/
theorem oid_roundtrip_and_rejects_witness :
    (oid "aaaaaaaaaaaaaaaaaaaaaaab").map ObjectId.toString =
      .ok "aaaaaaaaaaaaaaaaaaaaaaab" ∧
    oid "not-a-valid-object-id" = .error ⟨400, "Invalid ObjectId format"⟩ ∧
    oid "zzzzzzzzzzzzzzzzzzzzzzzz" = .error ⟨400, "Invalid ObjectId format"⟩ :=
  ⟨(oid_roundtrip_and_rejects "aaaaaaaaaaaaaaaaaaaaaaab").1 (by decide),
   (oid_roundtrip_and_rejects "not-a-valid-object-id").2.1 (by decide),
   (oid_roundtrip_and_rejects "zzzzzzzzzzzzzzzzzzzzzzzz").2.2
     ⟨'z', by decide, by decide⟩⟩

/-- C6 counterexample: two 24-character strings outside the native lowercase
encoding decode successfully instead of failing with InvalidIdentifier, and
neither round-trips — the uppercase hexadecimal string re-encodes to its
lowercase form, and a string of 22 hex digits plus two spaces (which
`bytes.fromhex` skips) re-encodes to a 22-character string. -/
theorem oid_uppercase_counterexample :
    ((oid "AAAAAAAAAAAAAAAAAAAAAAAA").map ObjectId.toString =
      .ok "aaaaaaaaaaaaaaaaaaaaaaaa" ∧
     isNativeOidString "AAAAAAAAAAAAAAAAAAAAAAAA" = false) ∧
    ((oid "aaaaaaaaaaaaaaaaaaaaaa  ").map ObjectId.toString =
      .ok "aaaaaaaaaaaaaaaaaaaaaa" ∧
     isNativeOidString "aaaaaaaaaaaaaaaaaaaaaa  " = false) := by
  refine ⟨⟨by decide, by decide⟩, ⟨by decide, by decide⟩⟩

/-- C8 counterexample: on the document whose `_id` field holds a null value,
`to_serializable` leaves `_id` in place (because of the `is not None` guard)
and adds no `id` field — refuting, for that input, the claim that the
internal `_id` field is replaced by a string-valued public `id` field. -/
theorem to_serializable_null_id_counterexample :
    to_serializable [("_id", BVal.nullV)] = [("_id", BVal.nullV)] ∧
    dictGet (to_serializable [("_id", BVal.nullV)]) "id" = none := by
  exact ⟨rfl, rfl⟩

/-- C8 (amended): `to_serializable` is a pure function of its input (the code
copies the dict before touching it, so the argument is not mutated). When the
`_id` field holds a native identifier value and no `id` key is present, the
result is the input with `_id` removed, every other identifier-valued field
stringified in place — preserving the order of those fields — and a public
string-valued `id` field appended; an `_id` that is absent or holds null is
left untouched (see the counterexample). -/
theorem to_serializable_shape (doc : BDoc) (o : ObjectId)
    (hid : dictGet doc "_id" = some (BVal.oidV o))
    (hnoid : (doc.any fun p => p.1 == "id") = false) :
    to_serializable doc =
      stringifyOids (dictPop doc "_id") ++ [("id", BVal.strV o.toString)] := by
  have h2 : ((dictPop doc "_id").any fun p => p.1 == "id") = false := by
    rw [List.any_eq_false]
    rw [List.any_eq_false] at hnoid
    intro x hx
    exact hnoid x (List.mem_of_mem_filter hx)
  simp only [to_serializable, hid]
  rw [if_neg (by simp)]
  simp only [dictSet, h2]
  simp [stringifyOids, List.map_append, BVal.pyStr]

/-- Witness for the amended theorem of C8 at a concrete two-field document. -/
theorem to_serializable_shape_witness :
    to_serializable
        [("_id", BVal.oidV ⟨List.replicate 24 1⟩), ("name", BVal.strV "Alice")] =
      stringifyOids (dictPop
        [("_id", BVal.oidV ⟨List.replicate 24 1⟩), ("name", BVal.strV "Alice")] "_id")
        ++ [("id", BVal.strV (ObjectId.toString ⟨List.replicate 24 1⟩))] :=
  to_serializable_shape _ _ (by decide) (by decide)

/-- C9 counterexample: a Player-creation body whose `name` is the empty
string passes validation (the schema declares `name: str` with no
non-emptiness constraint), refuting the claim that it fails with a 422
validation error. -/
theorem validatePlayer_empty_name_counterexample :
    validatePlayer ⟨some "", none, none⟩ = .ok ⟨"", none, none⟩ := rfl

/-- C9 (amended): a Player-creation request missing `name` fails with a
422-class validation error naming the field; a present `name` — any string,
including the empty string — with `rating` inside [0, 6] or omitted and
`handedness` absent or one of left/right validates successfully; a rating
outside [0, 6] fails with a 422-class range error. -/
theorem validatePlayer_spec (r : RawPlayer) :
    (r.name = none → validatePlayer r = .error (.missing "name")) ∧
    (∀ n q, r.name = some n → r.rating = some q → ¬(0 ≤ q ∧ q ≤ 6) →
      validatePlayer r = .error (.notInRange "rating")) ∧
    (∀ n, r.name = some n → (∀ q, r.rating = some q → 0 ≤ q ∧ q ≤ 6) →
      (∀ h, r.handedness = some h → h = "left" ∨ h = "right") →
      validatePlayer r = .ok ⟨n, r.rating, r.handedness⟩) := by
  rcases r with ⟨nm, rt, hd⟩
  refine ⟨?_, ?_, ?_⟩
  · rintro rfl
    rfl
  · rintro n q rfl rfl hout
    simp only [validatePlayer]
    rw [if_neg hout]
  · rintro n rfl hq hh
    cases rt with
    | none =>
      cases hd with
      | none => rfl
      | some h =>
        have hlr := hh h rfl
        simp only [validatePlayer]
        rw [if_pos hlr]
    | some q =>
      have hr := hq q rfl
      cases hd with
      | none =>
        simp only [validatePlayer]
        rw [if_pos hr]
      | some h =>
        have hlr := hh h rfl
        simp only [validatePlayer]
        rw [if_pos hr, if_pos hlr]

/-- Witness for the amended theorem of C9 at concrete request bodies. -/
theorem validatePlayer_spec_witness :
    validatePlayer ⟨none, none, none⟩ = .error (.missing "name") ∧
    validatePlayer ⟨some "Ann", some 7, none⟩ = .error (.notInRange "rating") ∧
    validatePlayer ⟨some "Ann", some 4, some "left"⟩ = .ok ⟨"Ann", some 4, some "left"⟩ :=
  ⟨(validatePlayer_spec ⟨none, none, none⟩).1 rfl,
   (validatePlayer_spec ⟨some "Ann", some 7, none⟩).2.1 "Ann" 7 rfl rfl (by norm_num),
   (validatePlayer_spec ⟨some "Ann", some 4, some "left"⟩).2.2 "Ann" rfl
     (by rintro q hq; cases hq; norm_num)
     (by rintro h hh; cases hh; exact Or.inl rfl)⟩

/-- Lookup `find?` by key returns the given member when the keys are duplicate-free
(the primary key of the database guarantees this for `_id`). -/
theorem find?_of_mem_nodup (l : List PlayerDoc) (pl : PlayerDoc) (hm : pl ∈ l)
    (hnd : (l.map fun x => x._id).Nodup) :
    l.find? (fun x => x._id == pl._id) = some pl := by
  induction l with
  | nil => cases hm
  | cons a l ih =>
    rcases List.mem_cons.mp hm with rfl | hm2
    · exact List.find?_cons_of_pos l (by simp)
    · rw [List.map_cons, List.nodup_cons] at hnd
      have hne : a._id ≠ pl._id := fun he => hnd.1 (he ▸ List.mem_map_of_mem _ hm2)
      rw [List.find?_cons_of_neg l (by simp [hne])]
      exact ih hm2 hnd.2

/-- C7: every database-dependent endpoint — create/list players, create
match, recent matches, create point, leaderboard, player analytics — fails
with the fixed 500-class response "Database not configured" when no database
connection is configured, before any other behavior. -/
theorem endpoints_require_database (newId : ObjectId) (p : PlayerModel)
    (mc : MatchCreate) (pc : PointCreate) (lim1 lim2 : Nat) (pid : String) :
    dbErr = ⟨500, "Database not configured"⟩ ∧
    create_player none newId p = .error dbErr ∧
    list_players none = .error dbErr ∧
    create_match none newId mc = .error dbErr ∧
    recent_matches none lim1 = .error dbErr ∧
    create_point none newId pc = .error dbErr ∧
    leaderboard none lim2 = .error dbErr ∧
    player_analytics none pid = .error dbErr :=
  ⟨rfl, rfl, rfl, rfl, rfl, rfl, rfl, rfl⟩

/-- C10: in `create_match` and `create_point` the database-availability
check precedes identifier decoding — with no database configured both
handlers return the fixed 500 error even on requests whose identifier
strings are malformed, so the 400 InvalidIdentifier outcome is unreachable
in that state. -/
theorem db_check_precedes_decoding (newId : ObjectId) (mc : MatchCreate) (pc : PointCreate)
    (ha : oid mc.player_a_id = .error ⟨400, "Invalid ObjectId format"⟩)
    (hm : oid pc.match_id = .error ⟨400, "Invalid ObjectId format"⟩) :
    create_match none newId mc = .error dbErr ∧
    create_point none newId pc = .error dbErr ∧
    create_match none newId mc ≠ .error ⟨400, "Invalid ObjectId format"⟩ ∧
    create_point none newId pc ≠ .error ⟨400, "Invalid ObjectId format"⟩ :=
  ⟨rfl, rfl, by simp [create_match, dbErr], by simp [create_point, dbErr]⟩

/-- Witness for C10: concrete malformed requests against an unconfigured
database yield the 500 response, not the 400 one. -/
theorem db_check_precedes_decoding_witness :
    create_match none (rep24 0) ⟨"bad", "bad", none, none, none, none⟩ = .error dbErr ∧
    create_point none (rep24 0) ⟨"bad", "bad", 1, none, false, none⟩ = .error dbErr :=
  ⟨(db_check_precedes_decoding (rep24 0) ⟨"bad", "bad", none, none, none, none⟩
      ⟨"bad", "bad", 1, none, false, none⟩ (by decide) (by decide)).1,
   (db_check_precedes_decoding (rep24 0) ⟨"bad", "bad", none, none, none, none⟩
      ⟨"bad", "bad", 1, none, false, none⟩ (by decide) (by decide)).2.1⟩

/-- C1: for a player identifier that decodes but matches zero stored Match
records, `player_analytics` returns the non-error zero summary — points won
and lost 0, null average rally, empty shot distribution, match count 0 — and
the name of the player exactly when a Player record with that identifier exists
(absent otherwise). -/
theorem player_analytics_zero_matches (db : DB) (pid : String) (p : ObjectId)
    (hdec : oid pid = .ok p)
    (hnone : ∀ m ∈ db.«matches», m.player_a_id ≠ p ∧ m.player_b_id ≠ p) :
    ∃ resp, player_analytics (some db) pid = .ok resp ∧
      resp.totals = ⟨0, 0, none⟩ ∧
      resp.shot_distribution = [] ∧
      resp.«matches» = 0 ∧
      ((∀ pl ∈ db.players, pl._id ≠ p) → resp.player = none) ∧
      (∀ pl ∈ db.players, pl._id = p → (db.players.map fun x => x._id).Nodup →
        resp.player = some pl.name) := by
  have hfilter : db.«matches».filter (fun m => m.player_a_id == p || m.player_b_id == p) = [] := by
    rw [List.filter_eq_nil_iff]
    intro m hm
    have h := hnone m hm
    simp [h.1, h.2]
  refine ⟨⟨(db.players.find? fun pl => pl._id == p).map (·.name), ⟨0, 0, none⟩, [], 0⟩,
    ?_, rfl, rfl, rfl, ?_, ?_⟩
  · simp [player_analytics, hdec, hfilter]
  · intro h
    have hfind : db.players.find? (fun pl => pl._id == p) = none :=
      List.find?_eq_none.mpr (fun x hx => by simp [h x hx])
    simp [hfind]
  · intro pl hpl hid hnd
    subst hid
    simp [find?_of_mem_nodup db.players pl hpl hnd]

/-- Witness for C1 at a concrete database: one player, no matches. -/
theorem player_analytics_zero_matches_witness :
    ∃ resp, player_analytics (some dbC1) "aaaaaaaaaaaaaaaaaaaaaaaa" = .ok resp ∧
      resp.totals = ⟨0, 0, none⟩ ∧
      resp.shot_distribution = [] ∧
      resp.«matches» = 0 ∧
      ((∀ pl ∈ dbC1.players, pl._id ≠ rep24 10) → resp.player = none) ∧
      (∀ pl ∈ dbC1.players, pl._id = rep24 10 → (dbC1.players.map fun x => x._id).Nodup →
        resp.player = some pl.name) :=
  player_analytics_zero_matches dbC1 "aaaaaaaaaaaaaaaaaaaaaaaa" (rep24 10)
    (by decide) (fun m hm => absurd hm (List.not_mem_nil m))

/-- C4: `recent_matches` returns the annotation of the first `limit`
elements of a sorted permutation of the match collection — ordered by start
time descending with descending-identifier tie-break, the limit applied
after sorting — so its length is the smaller of `limit` and the collection
size; concretely, on three matches with increasing start times and limit 2
it returns the latest two, latest first. -/
theorem recent_matches_spec :
    (∀ (db : DB) (limit : Nat), ∃ sorted,
      sorted.Perm db.«matches» ∧ List.Sorted recentLE sorted ∧
      recent_matches (some db) limit = .ok ((sorted.take limit).map (annotateMatch db)) ∧
      ((sorted.take limit).map (annotateMatch db)).length = min limit db.«matches».length) ∧
    recent_matches (some dbC4) 2 = .ok [annotateMatch dbC4 mC4c, annotateMatch dbC4 mC4b] := by
  constructor
  · intro db limit
    refine ⟨List.insertionSort recentLE db.«matches», List.perm_insertionSort _ _,
      List.sorted_insertionSort _ _, rfl, ?_⟩
    simp [List.length_take, List.length_insertionSort]
  · decide

/-- C3 (code bug): the leaderboard pipeline groups points by scorer, joins
the display name, sorts by points won descending and truncates — with two
scorers holding 3 and 5 points and limit 1 the intended response is exactly
the row of the 5-point scorer, as the claim states — but the handler returns
the rows without `to_serializable` while `$project` keeps the raw ObjectId
`_id`, so response encoding fails and the endpoint returns a 500 server
error whenever any point is stored; with an empty point collection it still
returns the empty list. -/
theorem leaderboard_objectid_code_bug :
    leaderboard (some dbC3) 1 = .error ⟨500, "Internal Server Error"⟩ ∧
    leaderboard (some ⟨[], [], []⟩) 1 = .ok [] ∧
    leaderboardRows dbC3 1 =
      [⟨rep24 2, ObjectId.toString (rep24 2), some "Bea", 5,
        rallyAvg [pC3b, pC3b, pC3b, pC3b, pC3b]⟩] :=
  ⟨rfl, rfl, rfl⟩

/-- Evaluation of `List.any` over a mapped list, for a map that changes the element type. -/
theorem any_map_general {α β : Type} (f : α → β) (p : β → Bool) :
    ∀ l : List α, (l.map f).any p = l.any fun a => p (f a)
  | [] => rfl
  | a :: l => by simp [List.any_cons, any_map_general f p l]

/-- C2: for a player with at least one match, `player_analytics` counts
points won as the points of the matches of the player whose scorer is the player,
points lost as the points of those same matches whose scorer is any other
identifier (matches-scoped, not global), and averages rally length over all
points of those matches — not only the points of the player. -/
theorem player_analytics_totals (db : DB) (pid : String) (p : ObjectId)
    (hdec : oid pid = .ok p) (m0 : MatchDoc) (hm0 : m0 ∈ db.«matches»)
    (hp0 : m0.player_a_id = p ∨ m0.player_b_id = p) :
    ∃ resp, player_analytics (some db) pid = .ok resp ∧
      resp.totals.points_won =
        (db.points.filter fun pt => inPlayerMatches db p pt && (pt.scorer_id == p)).length ∧
      resp.totals.points_lost =
        (db.points.filter fun pt => inPlayerMatches db p pt && (pt.scorer_id != p)).length ∧
      resp.totals.avg_rally =
        (if (db.points.filter fun pt => inPlayerMatches db p pt) = [] then none
         else some (rallyAvg (db.points.filter fun pt => inPlayerMatches db p pt))) ∧
      resp.«matches» =
        (db.«matches».filter fun m => m.player_a_id == p || m.player_b_id == p).length := by
  have hpt : ∀ pt : PointDoc,
      (((db.«matches».filter fun m => m.player_a_id == p || m.player_b_id == p).map
        fun m => m._id).contains pt.match_id) = inPlayerMatches db p pt := by
    intro pt
    rw [List.contains_eq_any_beq, any_map_general, List.any_filter]
    rfl
  have hm0f : m0 ∈ db.«matches».filter fun m => m.player_a_id == p || m.player_b_id == p :=
    List.mem_filter.mpr ⟨hm0, by rcases hp0 with h | h <;> simp [h]⟩
  have hne : (((db.«matches».filter fun m => m.player_a_id == p || m.player_b_id == p).map
      fun m => m._id)).isEmpty = false := by
    rw [List.isEmpty_eq_false]
    intro hnil
    have hmm := List.mem_map_of_mem (fun m => m._id) hm0f
    rw [hnil] at hmm
    exact absurd hmm (List.not_mem_nil _)
  refine ⟨⟨(db.players.find? fun pl => pl._id == p).map (·.name),
    ⟨((db.points.filter fun pt =>
        ((db.«matches».filter fun m => m.player_a_id == p || m.player_b_id == p).map
          fun m => m._id).contains pt.match_id).filter fun pt => pt.scorer_id == p).length,
     ((db.points.filter fun pt =>
        ((db.«matches».filter fun m => m.player_a_id == p || m.player_b_id == p).map
          fun m => m._id).contains pt.match_id).filter fun pt => pt.scorer_id != p).length,
     if (db.points.filter fun pt =>
        ((db.«matches».filter fun m => m.player_a_id == p || m.player_b_id == p).map
          fun m => m._id).contains pt.match_id).isEmpty
      then none
      else some (rallyAvg (db.points.filter fun pt =>
        ((db.«matches».filter fun m => m.player_a_id == p || m.player_b_id == p).map
          fun m => m._id).contains pt.match_id))⟩,
    shotDistribution db.points
      ((db.«matches».filter fun m => m.player_a_id == p || m.player_b_id == p).map
        fun m => m._id) p,
    (db.«matches».filter fun m => m.player_a_id == p || m.player_b_id == p).length⟩,
    ?_, ?_, ?_, ?_, ?_⟩
  · simp only [player_analytics, hdec]
    rw [hne]
    rw [if_neg Bool.false_ne_true]
  · dsimp only
    rw [List.filter_filter]
    exact congrArg List.length (List.filter_congr fun pt _ => by rw [Bool.and_comm, hpt pt])
  · dsimp only
    rw [List.filter_filter]
    exact congrArg List.length (List.filter_congr fun pt _ => by rw [Bool.and_comm, hpt pt])
  · dsimp only
    have heq : (db.points.filter fun pt =>
        ((db.«matches».filter fun m => m.player_a_id == p || m.player_b_id == p).map
          fun m => m._id).contains pt.match_id) =
        db.points.filter fun pt => inPlayerMatches db p pt :=
      List.filter_congr fun pt _ => hpt pt
    rw [heq]
    by_cases hmt : (db.points.filter fun pt => inPlayerMatches db p pt) = []
    · rw [hmt]
      simp
    · rw [List.isEmpty_eq_false.mpr hmt]
      simp [hmt]
  · rfl

/-- Witness for C2 at a concrete database: the player has one match with two
points (one won, one lost) and an unrelated match holds a third point. -/
theorem player_analytics_totals_witness :
    ∃ resp, player_analytics (some dbC2) "aaaaaaaaaaaaaaaaaaaaaaaa" = .ok resp ∧
      resp.totals.points_won =
        (dbC2.points.filter fun pt =>
          inPlayerMatches dbC2 (rep24 10) pt && (pt.scorer_id == rep24 10)).length ∧
      resp.totals.points_lost =
        (dbC2.points.filter fun pt =>
          inPlayerMatches dbC2 (rep24 10) pt && (pt.scorer_id != rep24 10)).length ∧
      resp.totals.avg_rally =
        (if (dbC2.points.filter fun pt => inPlayerMatches dbC2 (rep24 10) pt) = [] then none
         else some (rallyAvg (dbC2.points.filter fun pt =>
           inPlayerMatches dbC2 (rep24 10) pt))) ∧
      resp.«matches» =
        (dbC2.«matches».filter fun m =>
          m.player_a_id == rep24 10 || m.player_b_id == rep24 10).length :=
  player_analytics_totals dbC2 "aaaaaaaaaaaaaaaaaaaaaaaa" (rep24 10)
    (by decide) mC2a (List.mem_cons_self _ _) (Or.inl rfl)

/-- On a duplicate-free list, filtering for one value yields that value as a
singleton when present and nothing otherwise. -/
theorem filter_beq_of_nodup {α : Type} [BEq α] [LawfulBEq α] [DecidableEq α] :
    ∀ l : List α, l.Nodup → ∀ a : α,
    l.filter (fun x => x == a) = if a ∈ l then [a] else []
  | [], _, a => by simp
  | b :: l, hnd, a => by
    rw [List.nodup_cons] at hnd
    by_cases hba : b = a
    · subst hba
      rw [List.filter_cons_of_pos (by simp)]
      have hnil : l.filter (fun x => x == b) = [] :=
        List.filter_eq_nil_iff.mpr fun x hx => by
          simp only [beq_iff_eq]
          intro hxb
          exact hnd.1 (hxb ▸ hx)
      rw [hnil]
      simp
    · rw [List.filter_cons_of_neg (by simp [hba])]
      rw [filter_beq_of_nodup l hnd.2 a]
      by_cases hal : a ∈ l
      · simp [hal, List.mem_cons]
      · simp [hal, List.mem_cons, Ne.symm hba]

/-- The shot count read off the materialized mapping equals the group value
recorded for the (non-empty) category `s`. -/
theorem shotCount_filterMap (s : String) (hs : s ≠ "") :
    ∀ l : List (Option String × Nat),
    shotCount (l.filterMap materializeShot) s =
      ((l.filter fun g => g.1 == some s).map fun g => g.2).sum
  | [] => rfl
  | g :: l => by
    have ih := shotCount_filterMap s hs l
    rcases g with ⟨k, n⟩
    rcases k with _ | t
    · simpa [List.filterMap_cons, materializeShot, List.filter_cons] using ih
    · by_cases ht : t = ""
      · subst ht
        have hts : ¬(((some "" : Option String), n).1 == some s) = true := by
          simp [Ne.symm hs]
        rw [@List.filter_cons_of_neg _ (fun g => g.1 == some s) (some "", n) l hts]
        simpa [List.filterMap_cons, materializeShot] using ih
      · by_cases hts : t = s
        · subst hts
          simp only [List.filterMap_cons, materializeShot, if_neg ht]
          rw [List.filter_cons_of_pos (by simp)]
          simp only [shotCount] at ih ⊢
          rw [List.filter_cons_of_pos (by simp)]
          simp [ih]
        · simp only [List.filterMap_cons, materializeShot, if_neg ht]
          rw [List.filter_cons_of_neg (by simp [hts])]
          simp only [shotCount] at ih ⊢
          rw [List.filter_cons_of_neg (by simp [hts])]
          exact ih

/-- The count the shot-distribution pipeline reports for a non-empty
category `s` is exactly the number of stored points of the given matches,
scored by the given player, whose `winner_shot` field is present with value
`s`. -/
theorem shotCount_shotDistribution (pts : List PointDoc) (mids : List ObjectId)
    (p : ObjectId) (s : String) (hs : s ≠ "") :
    shotCount (shotDistribution pts mids p) s =
      (pts.filter fun pt => mids.contains pt.match_id && pt.scorer_id == p &&
        pt.winner_shot == some (some s)).length := by
  have haux : ∀ pt : PointDoc,
      ((pt.winner_shot.getD none == some s) &&
        (mids.contains pt.match_id && (pt.scorer_id == p) && pt.winner_shot.isSome)) =
      (mids.contains pt.match_id && (pt.scorer_id == p) && (pt.winner_shot == some (some s))) := by
    intro pt
    rcases pt.winner_shot with _ | v
    · simp
    · rw [Bool.eq_iff_iff]
      simp only [Option.getD_some, Bool.and_eq_true, Option.isSome_some, beq_iff_eq,
        Option.some.injEq, and_true]
      tauto
  simp only [shotDistribution]
  rw [shotCount_filterMap s hs]
  have hperm :
      ((List.insertionSort cntLE
          (((pts.filter fun pt => mids.contains pt.match_id && pt.scorer_id == p &&
              pt.winner_shot.isSome).map fun pt => pt.winner_shot.getD none).dedup.map
            fun k => (k, ((pts.filter fun pt => mids.contains pt.match_id &&
              pt.scorer_id == p && pt.winner_shot.isSome).filter
                fun pt => pt.winner_shot.getD none == k).length))).filter
        fun g => g.1 == some s).Perm
      (((((pts.filter fun pt => mids.contains pt.match_id && pt.scorer_id == p &&
          pt.winner_shot.isSome).map fun pt => pt.winner_shot.getD none).dedup.map
            fun k => (k, ((pts.filter fun pt => mids.contains pt.match_id &&
              pt.scorer_id == p && pt.winner_shot.isSome).filter
                fun pt => pt.winner_shot.getD none == k).length)).filter
        fun g => g.1 == some s)) :=
    List.Perm.filter _ (List.perm_insertionSort _ _)
  rw [((hperm.map fun g => g.2).sum_eq : _)]
  rw [List.filter_map]
  have hcongr :
      ((((pts.filter fun pt => mids.contains pt.match_id && pt.scorer_id == p &&
          pt.winner_shot.isSome).map fun pt => pt.winner_shot.getD none).dedup).filter
        ((fun g : Option String × Nat => g.1 == some s) ∘ fun k =>
          (k, ((pts.filter fun pt => mids.contains pt.match_id &&
            pt.scorer_id == p && pt.winner_shot.isSome).filter
              fun pt => pt.winner_shot.getD none == k).length))) =
      ((((pts.filter fun pt => mids.contains pt.match_id && pt.scorer_id == p &&
          pt.winner_shot.isSome).map fun pt => pt.winner_shot.getD none).dedup).filter
        fun k => k == some s) :=
    List.filter_congr fun k _ => rfl
  rw [hcongr]
  rw [filter_beq_of_nodup _ (List.nodup_dedup _) (some s)]
  by_cases hk : (some s : Option String) ∈
      ((pts.filter fun pt => mids.contains pt.match_id && pt.scorer_id == p &&
        pt.winner_shot.isSome).map fun pt => pt.winner_shot.getD none).dedup
  · rw [if_pos hk]
    simp only [List.map_cons, List.map_nil, List.sum_cons, List.sum_nil, Nat.add_zero]
    rw [List.filter_filter]
    exact congrArg List.length (List.filter_congr fun pt _ => haux pt)
  · rw [if_neg hk]
    simp only [List.map_nil, List.sum_nil]
    have hnil : (pts.filter fun pt => mids.contains pt.match_id && pt.scorer_id == p &&
        pt.winner_shot == some (some s)) = [] := by
      rw [List.filter_eq_nil_iff]
      intro pt hpt hpred
      apply hk
      rw [Bool.and_eq_true, Bool.and_eq_true] at hpred
      obtain ⟨⟨hc, hsc⟩, hws⟩ := hpred
      have heq : pt.winner_shot = some (some s) := by simpa [beq_iff_eq] using hws
      have hbool : (mids.contains pt.match_id && pt.scorer_id == p &&
          pt.winner_shot.isSome) = true := by
        rw [Bool.and_eq_true, Bool.and_eq_true]
        exact ⟨⟨hc, hsc⟩, by simp [heq]⟩
      have hptown : pt ∈ pts.filter fun pt => mids.contains pt.match_id &&
          pt.scorer_id == p && pt.winner_shot.isSome :=
        List.mem_filter.mpr ⟨hpt, hbool⟩
      apply List.mem_dedup.mpr
      have hmm := List.mem_map_of_mem (fun pt => pt.winner_shot.getD none) hptown
      simpa [heq] using hmm
    rw [hnil]
    rfl

/-- C5: a Point created without `winner_shot` stores a document whose
`winner_shot` field is absent altogether (not null), and such a point never
changes any shot distribution; a Point created with `winner_shot = s` (for a
shot category `s`, e.g. "dink") stores the field with value `s` and, in the
shot distribution of its scorer over matches including it, raises the count
of category `s` by exactly 1 while leaving every other category unchanged. -/
theorem create_point_winner_shot (db : DB) (newId : ObjectId) (pc : PointCreate)
    (mo so : ObjectId) (hmo : oid pc.match_id = .ok mo) (hso : oid pc.scorer_id = .ok so) :
    (pc.winner_shot = none →
      ∃ db2, create_point (some db) newId pc = .ok (ObjectId.toString newId, db2) ∧
        db2.points = db.points ++
          [⟨newId, mo, so, pc.rally_length, none, pc.unforced_error, pc.notes⟩] ∧
        ∀ mids q, shotDistribution db2.points mids q = shotDistribution db.points mids q) ∧
    (∀ s, pc.winner_shot = some s → s ≠ "" →
      ∃ db2, create_point (some db) newId pc = .ok (ObjectId.toString newId, db2) ∧
        db2.points = db.points ++
          [⟨newId, mo, so, pc.rally_length, some (some s), pc.unforced_error, pc.notes⟩] ∧
        ∀ mids, mids.contains mo = true →
          shotCount (shotDistribution db2.points mids so) s =
            shotCount (shotDistribution db.points mids so) s + 1 ∧
          ∀ t, t ≠ s → t ≠ "" →
            shotCount (shotDistribution db2.points mids so) t =
              shotCount (shotDistribution db.points mids so) t) := by
  constructor
  · intro h
    refine ⟨{ db with points := db.points ++
        [⟨newId, mo, so, pc.rally_length, none, pc.unforced_error, pc.notes⟩] }, ?_, rfl, ?_⟩
    · simp [create_point, hmo, hso, h]
    · intro mids q
      show shotDistribution (db.points ++
        [(⟨newId, mo, so, pc.rally_length, none, pc.unforced_error, pc.notes⟩ : PointDoc)]) mids q =
        shotDistribution db.points mids q
      have hflt : (db.points ++
          [(⟨newId, mo, so, pc.rally_length, none, pc.unforced_error, pc.notes⟩ : PointDoc)]).filter
            (fun pt => mids.contains pt.match_id && pt.scorer_id == q &&
              pt.winner_shot.isSome) =
          db.points.filter (fun pt => mids.contains pt.match_id && pt.scorer_id == q &&
            pt.winner_shot.isSome) := by
        rw [List.filter_append]
        have hone : List.filter (fun pt : PointDoc => mids.contains pt.match_id &&
            pt.scorer_id == q && pt.winner_shot.isSome)
            ([⟨newId, mo, so, pc.rally_length, none, pc.unforced_error, pc.notes⟩] :
              List PointDoc) = [] := by
          simp
        rw [hone, List.append_nil]
      simp only [shotDistribution]
      rw [hflt]
  · intro s h hs
    refine ⟨{ db with points := db.points ++
        [⟨newId, mo, so, pc.rally_length, some (some s), pc.unforced_error, pc.notes⟩] }, ?_, rfl, ?_⟩
    · simp [create_point, hmo, hso, h]
    · intro mids hcont
      constructor
      · show shotCount (shotDistribution (db.points ++
          [(⟨newId, mo, so, pc.rally_length, some (some s), pc.unforced_error, pc.notes⟩ : PointDoc)])
            mids so) s = shotCount (shotDistribution db.points mids so) s + 1
        rw [shotCount_shotDistribution _ _ _ _ hs, shotCount_shotDistribution _ _ _ _ hs]
        rw [List.filter_append, List.length_append]
        have hone : List.filter (fun pt : PointDoc => mids.contains pt.match_id &&
            pt.scorer_id == so && pt.winner_shot == some (some s))
            ([⟨newId, mo, so, pc.rally_length, some (some s), pc.unforced_error, pc.notes⟩] :
              List PointDoc) =
            [⟨newId, mo, so, pc.rally_length, some (some s), pc.unforced_error, pc.notes⟩] := by
          rw [List.filter_cons_of_pos (by simp at hcont; simp [hcont])]
          rfl
        rw [hone]
        rfl
      · intro t ht ht2
        show shotCount (shotDistribution (db.points ++
          [(⟨newId, mo, so, pc.rally_length, some (some s), pc.unforced_error, pc.notes⟩ : PointDoc)])
            mids so) t = shotCount (shotDistribution db.points mids so) t
        rw [shotCount_shotDistribution _ _ _ _ ht2, shotCount_shotDistribution _ _ _ _ ht2]
        rw [List.filter_append]
        have hone : List.filter (fun pt : PointDoc => mids.contains pt.match_id &&
            pt.scorer_id == so && pt.winner_shot == some (some t))
            ([⟨newId, mo, so, pc.rally_length, some (some s), pc.unforced_error, pc.notes⟩] :
              List PointDoc) = [] := by
          rw [List.filter_cons_of_neg (by simp [Ne.symm ht])]
          rfl
        rw [hone, List.append_nil]

/-- Witness for C5: against a concrete database, creating a "dink" point in
the match of the scorer raises the "dink" count of that scorer by exactly 1, and
creating a point without `winner_shot` leaves the shot distribution
unchanged. -/
theorem create_point_winner_shot_witness :
    shotCount (shotDistribution (dbC2.points ++
        [⟨rep24 5, rep24 1, rep24 2, 4, some (some "dink"), false, none⟩]) [rep24 1] (rep24 2))
        "dink" =
      shotCount (shotDistribution dbC2.points [rep24 1] (rep24 2)) "dink" + 1 ∧
    shotDistribution (dbC2.points ++
        [⟨rep24 5, rep24 1, rep24 2, 4, none, false, none⟩]) [rep24 1] (rep24 2) =
      shotDistribution dbC2.points [rep24 1] (rep24 2) := by
  constructor
  · obtain ⟨db2, hcp, hpts, hsh⟩ :=
      (create_point_winner_shot dbC2 (rep24 5) pcC5d (rep24 1) (rep24 2)
        (by decide) (by decide)).2 "dink" rfl (by decide)
    have h1 := (hsh [rep24 1] (by decide)).1
    rw [hpts] at h1
    exact h1
  · obtain ⟨db2, hcp, hpts, hsh⟩ :=
      (create_point_winner_shot dbC2 (rep24 5) pcC5n (rep24 1) (rep24 2)
        (by decide) (by decide)).1 rfl
    have h1 := hsh [rep24 1] (rep24 2)
    rw [hpts] at h1
    exact h1
